import Mathlib

/-!
Verification of the glxsync frame-synchronization core (src/gl2_xsync.c).

The development shallowly embeds the protocol state machine and scheduler of
gl2_xsync.c.  Machine integers are modelled as Nat (for the C ulong serial
counters, with an explicit mod 2^64 where 64-bit wraparound matters) and as
Int (for the C long time values and circular-buffer samples).  The C float
frame rates are modelled as exact rationals.  Calls to XSyncSetCounter are
modelled as appending the written value to a per-counter trace list, and the
external Renderer and connection-flush effects are modelled as counters of
invocations, following the component boundaries of the specification.
-/

/-- Number of slots in the samples array of circular_buffer
(array_size of samples, a long[31] in the source). -/
def cb_capacity : Nat := 31

/-- Embedding of struct circular_buffer: a running sum, a total insertion
count, a write cursor, and the samples array (modelled as a total function
from index to value; only indices below cb_capacity are ever written, all
slots start at zero as in the zero-initialized C static). -/
structure circular_buffer where
  sum : Int
  count : Nat
  offset : Nat
  samples : Nat → Int

/-- The zero-initialized buffer (C static storage). -/
def cb_init : circular_buffer :=
  { sum := 0, count := 0, offset := 0, samples := fun _ => 0 }

/-- Embedding of circular_buffer_add: overwrite the slot at the cursor,
adjust the running sum by the difference, bump the count, advance and wrap
the cursor. -/
def circular_buffer_add (buffer : circular_buffer) (new_value : Int) :
    circular_buffer :=
  let old_value := buffer.samples buffer.offset
  let samples := Function.update buffer.samples buffer.offset new_value
  let offset := buffer.offset + 1
  { sum := buffer.sum + (new_value - old_value)
    count := buffer.count + 1
    offset := if cb_capacity ≤ offset then 0 else offset
    samples := samples }

/-- Embedding of circular_buffer_average: -1 sentinel when empty, otherwise
the sum divided by min(count, capacity).  C long division truncates toward
zero, which is Int.div. -/
def circular_buffer_average (buffer : circular_buffer) : Int :=
  if buffer.count = 0 then -1
  else if buffer.count < cb_capacity then
    Int.tdiv buffer.sum (Int.ofNat buffer.count)
  else
    Int.tdiv buffer.sum (Int.ofNat cb_capacity)

/-- Insert a list of samples in order (repeated circular_buffer_add). -/
def cb_insert_list (buffer : circular_buffer) (xs : List Int) :
    circular_buffer :=
  xs.foldl circular_buffer_add buffer

/-- Embedding of the frame_disposition enum. -/
inductive frame_disposition where
  | frame_normal
  | frame_urgent
deriving DecidableEq, Repr

/-- Modulus of the C ulong (unsigned 64-bit) serial counters. -/
def u64_mod : Nat := 2 ^ 64

/-- Embedding of the extended-frame-synchronization globals of gl2_xsync.c
that the protocol operations touch.  The two XSync counters are modelled as
traces of the values written to them, in order (sync_counter calls on
extended_counter and update_counter respectively).  The C int flags
request_extended_sync and configure_extended_sync are used only as booleans
(set from a comparison, tested, cleared to 0) and are modelled as Bool. -/
structure xsync_state where
  request_extended_sync : Bool
  configure_extended_sync : Bool
  current_sync_serial : Nat
  request_sync_serial : Nat
  configure_sync_serial : Nat
  inflight_sync_serial : Nat
  drawn_sync_serial : Nat
  timing_sync_serial : Nat
  extended_writes : List Nat
  update_writes : List Nat
deriving DecidableEq, Repr

/-- The all-zero initial state (C static storage at negotiation time). -/
def xsync_init : xsync_state :=
  { request_extended_sync := false
    configure_extended_sync := false
    current_sync_serial := 0
    request_sync_serial := 0
    configure_sync_serial := 0
    inflight_sync_serial := 0
    drawn_sync_serial := 0
    timing_sync_serial := 0
    extended_writes := []
    update_writes := [] }

/-- Model of sync_counter on the extended counter: record the written value. -/
def sync_counter_ext (s : xsync_state) (value : Nat) : xsync_state :=
  { s with extended_writes := s.extended_writes ++ [value] }

/-- Model of sync_counter on the basic update counter: record the value. -/
def sync_counter_upd (s : xsync_state) (value : Nat) : xsync_state :=
  { s with update_writes := s.update_writes ++ [value] }

/-- Embedding of begin_frame: consume a pending extended configured serial,
round current up to the next multiple of 4 (the C expression
(current + 3) & ~3 in 64-bit arithmetic), set inflight to current + 4,
advance current by 1 (normal) or 3 (urgent), and publish it to the extended
counter.  All serial arithmetic is ulong, hence mod 2^64. -/
def begin_frame (s : xsync_state) (disposition : frame_disposition) :
    xsync_state :=
  let s :=
    if s.configure_sync_serial ≠ 0 ∧ s.configure_extended_sync then
      { s with current_sync_serial := s.configure_sync_serial
               configure_sync_serial := 0 }
    else s
  let s :=
    if s.current_sync_serial % 4 ≠ 0 then
      { s with current_sync_serial :=
          (s.current_sync_serial + 3) % u64_mod / 4 * 4 }
    else s
  let step : Nat := match disposition with
    | frame_disposition.frame_urgent => 3
    | frame_disposition.frame_normal => 1
  let s :=
    { s with inflight_sync_serial := (s.current_sync_serial + 4) % u64_mod
             current_sync_serial := (s.current_sync_serial + step) % u64_mod }
  sync_counter_ext s s.current_sync_serial

/-- Embedding of end_frame: if the low two bits of current are 01 advance by
3, if 11 advance by 1, republishing the extended counter; then, if a
configured serial is pending with the extended flag set, publish it to the
basic update counter and clear both. -/
def end_frame (s : xsync_state) : xsync_state :=
  let s :=
    if s.current_sync_serial % 4 = 1 then
      let s := { s with
        current_sync_serial := (s.current_sync_serial + 3) % u64_mod }
      sync_counter_ext s s.current_sync_serial
    else if s.current_sync_serial % 4 = 3 then
      let s := { s with
        current_sync_serial := (s.current_sync_serial + 1) % u64_mod }
      sync_counter_ext s s.current_sync_serial
    else s
  if s.configure_sync_serial ≠ 0 ∧ s.configure_extended_sync then
    let s := sync_counter_upd s s.configure_sync_serial
    { s with configure_sync_serial := 0, configure_extended_sync := false }
  else s

/-- Embedding of the _NET_WM_SYNC_REQUEST ClientMessage case of
process_event: record the requested serial (reconstructed from the two
32-bit halves into a 64-bit value, hence mod 2^64) and the extended flag. -/
def on_sync_request (s : xsync_state) (serial : Nat) (extended : Bool) :
    xsync_state :=
  { s with request_sync_serial := serial % u64_mod
           request_extended_sync := extended }

/-- Embedding of the serial-handling part of the ConfigureNotify case of
process_event: promote requested to configured, clear the requested slot,
and republish current to the extended counter.  The width and height updates
of the same case live in frame_sched_state. -/
def on_configure (s : xsync_state) : xsync_state :=
  let s := { s with
    configure_sync_serial := s.request_sync_serial
    configure_extended_sync := s.request_extended_sync
    request_sync_serial := 0
    request_extended_sync := false }
  sync_counter_ext s s.current_sync_serial

/-- Embedding of the _NET_WM_FRAME_DRAWN case of process_event: accept the
serial only if strictly greater than the stored high-water mark. -/
def on_frame_drawn (s : xsync_state) (serial : Nat) : xsync_state :=
  if serial > s.drawn_sync_serial then
    { s with drawn_sync_serial := serial }
  else s

/-- Embedding of the _NET_WM_FRAME_TIMINGS case of process_event: accept the
serial only if strictly greater than the stored high-water mark. -/
def on_frame_timings (s : xsync_state) (serial : Nat) : xsync_state :=
  if serial > s.timing_sync_serial then
    { s with timing_sync_serial := serial }
  else s

/-- Embedding of the frame-scheduler globals of gl2_xsync.c used by
submit_frame and the ConfigureNotify case.  Times are C long microsecond
values (Int).  The external effects are modelled as counters: flush_count
counts XFlush and XSync calls, renderer_invocations counts draw_frame calls,
swap_count counts glXSwapBuffers calls. -/
structure frame_sched_state where
  sync : xsync_state
  frame_number : Nat
  last_draw_time : Int
  next_draw_time : Int
  current_time : Int
  delta_time : Int
  render_time : Int
  width : Int
  height : Int
  frame_time_buffer : circular_buffer
  render_time_buffer : circular_buffer
  flush_count : Nat
  renderer_invocations : Nat
  swap_count : Nat

/-- The zero-initialized scheduler state with 500x500 window (C statics). -/
def sched_init : frame_sched_state :=
  { sync := xsync_init
    frame_number := 0
    last_draw_time := 0
    next_draw_time := 0
    current_time := 0
    delta_time := 0
    render_time := 0
    width := 500
    height := 500
    frame_time_buffer := cb_init
    render_time_buffer := cb_init
    flush_count := 0
    renderer_invocations := 0
    swap_count := 0 }

/-- Embedding of submit_frame.  The two get_time_microseconds calls are the
parameters now (at entry) and now2 (after the render).  The C float target
rate is modelled as an exact rational; the C cast (long)(1e6f / rate)
truncates, which for the positive rates used equals the floor.  The guard
path flushes (XSync) and reschedules 2000 microseconds ahead; the main path
records the inter-frame delta (except on the first frame), schedules the
next draw, bumps the frame number, flushes, draws, runs
begin_frame with frame_normal (as the source does for every disposition),
swaps, runs end_frame, and records the render duration. -/
def submit_frame (st : frame_sched_state) (disposition : frame_disposition)
    (target_frame_rate : ℚ) (now now2 : Int) : frame_sched_state :=
  let st := { st with current_time := now }
  if 0 < st.sync.timing_sync_serial ∧
      st.sync.timing_sync_serial < st.sync.inflight_sync_serial then
    { st with flush_count := st.flush_count + 1
              next_draw_time := st.current_time + 2000 }
  else
    let st :=
      if st.last_draw_time ≠ 0 then
        { st with delta_time := st.current_time - st.last_draw_time
                  frame_time_buffer := circular_buffer_add st.frame_time_buffer
                    (st.current_time - st.last_draw_time) }
      else st
    let st := { st with
      last_draw_time := st.current_time
      next_draw_time := st.current_time + ⌊(1000000 : ℚ) / target_frame_rate⌋
      frame_number := st.frame_number + 1
      flush_count := st.flush_count + 1
      renderer_invocations := st.renderer_invocations + 1 }
    let st := { st with
      sync := begin_frame st.sync frame_disposition.frame_normal }
    let st := { st with swap_count := st.swap_count + 1 }
    let st := { st with sync := end_frame st.sync }
    { st with
      current_time := now2
      render_time := now2 - st.last_draw_time
      render_time_buffer := circular_buffer_add st.render_time_buffer
        (now2 - st.last_draw_time) }

/-- Embedding of the rate-cap computation in the Expose case of
process_event: measured rate is 1e6 over the frame-interval average, and the
cap applies only when the average is positive and the configured rate
exceeds the measured rate.  The C float arithmetic is modelled as exact
rational arithmetic. -/
def cap_frame_rate (frame_time_avg : Int) (frame_rate : ℚ) : ℚ :=
  let measured_frame_rate : ℚ := 1000000 / (frame_time_avg : ℚ)
  if 0 < frame_time_avg ∧ measured_frame_rate < frame_rate then
    measured_frame_rate
  else frame_rate

/-- Embedding of the Expose case of process_event: submit an urgent frame at
the capped rate computed from the current frame-interval average. -/
def on_expose (st : frame_sched_state) (frame_rate : ℚ) (now now2 : Int) :
    frame_sched_state :=
  let frame_time_avg := circular_buffer_average st.frame_time_buffer
  submit_frame st frame_disposition.frame_urgent
    (cap_frame_rate frame_time_avg frame_rate) now now2

/-- Embedding of the ConfigureNotify case of process_event: record the new
width and height, then promote the requested serial as in on_configure. -/
def on_configure_notify (st : frame_sched_state) (w h : Int) :
    frame_sched_state :=
  { st with width := w, height := h, sync := on_configure st.sync }

/-- The loop body of check_wm_supported: return 1 at the first matching
atom; falling off the end of the list reaches the end of the non-void C
function without a return statement, modelled as none (no defined value). -/
def check_wm_loop (supported_atoms : List Nat) (atom : Nat) : Option Int :=
  match supported_atoms with
  | [] => none
  | a :: rest => if a = atom then some 1 else check_wm_loop rest atom

/-- Embedding of check_wm_supported: returns some 0 when _NET_SUPPORTED was
absent, some 1 when the atom is found, and none on the undefined
fall-through path after a found-nothing loop. -/
def check_wm_supported (have_net_supported : Bool)
    (supported_atoms : List Nat) (atom : Nat) : Option Int :=
  if !have_net_supported then some 0
  else check_wm_loop supported_atoms atom

/-- Protocol operations for the idle invariant: a full normal frame cycle
(begin_frame with frame_normal followed by end_frame), and the dispatcher
updates that touch the requested and configured slots or the high-water
marks. -/
inductive sync_op where
  | op_cycle
  | op_sync_request (serial : Nat) (extended : Bool)
  | op_configure
  | op_frame_drawn (serial : Nat)
  | op_frame_timings (serial : Nat)

/-- Apply one protocol operation to the sync state. -/
def apply_sync_op (s : xsync_state) (op : sync_op) : xsync_state :=
  match op with
  | sync_op.op_cycle =>
      end_frame (begin_frame s frame_disposition.frame_normal)
  | sync_op.op_sync_request serial extended => on_sync_request s serial extended
  | sync_op.op_configure => on_configure s
  | sync_op.op_frame_drawn serial => on_frame_drawn s serial
  | sync_op.op_frame_timings serial => on_frame_timings s serial

/-- Run a sequence of protocol operations from a starting state. -/
def run_sync_ops (s : xsync_state) (ops : List sync_op) : xsync_state :=
  ops.foldl apply_sync_op s

/-- The value held in slot j of the samples array after inserting the list
xs into a fresh buffer: the most recently inserted sample whose insertion
index is congruent to j modulo the capacity, or 0 if slot j was never
written. -/
def cb_slot_spec (xs : List Int) (j : Nat) : Int :=
  if j < xs.length ∧ j < cb_capacity then
    xs.getD (j + cb_capacity * ((xs.length - 1 - j) / cb_capacity)) 0
  else 0

/-- Invariant carried between frame cycles: current is an idle multiple of
4 and the serial slots that can replace it hold 64-bit values. -/
def xsync_inv (s : xsync_state) : Prop :=
  s.current_sync_serial % 4 = 0 ∧ s.current_sync_serial < u64_mod ∧
  s.request_sync_serial < u64_mod ∧ s.configure_sync_serial < u64_mod

/-- C9: there is an input on which check_wm_supported returns no defined
value: with _NET_SUPPORTED present and the queried atom absent from the
supported-atoms list, control reaches the end of the non-void function with
no return statement, modelled as none. -/
theorem check_wm_supported_fallthrough :
    check_wm_supported true [5] 7 = none := rfl

/-- C6: onFrameDrawn and onFrameTimings are monotonic high-water marks: a
serial strictly greater than the stored value replaces it, and a serial less
than or equal to the stored value leaves the whole protocol state
unchanged. -/
theorem frame_serials_high_water_mark (s : xsync_state) (serial : Nat) :
    (s.drawn_sync_serial < serial →
      on_frame_drawn s serial = { s with drawn_sync_serial := serial }) ∧
    (serial ≤ s.drawn_sync_serial → on_frame_drawn s serial = s) ∧
    (s.timing_sync_serial < serial →
      on_frame_timings s serial = { s with timing_sync_serial := serial }) ∧
    (serial ≤ s.timing_sync_serial → on_frame_timings s serial = s) := by
  refine ⟨fun h => ?_, fun h => ?_, fun h => ?_, fun h => ?_⟩ <;>
    simp [on_frame_drawn, on_frame_timings, h, Nat.not_lt.mpr h]

/-- Witness for C6 at a concrete state and serial. -/
theorem frame_serials_high_water_mark_witness :
    xsync_init.drawn_sync_serial < 7 ∧
    on_frame_drawn xsync_init 7 = { xsync_init with drawn_sync_serial := 7 } :=
  ⟨by decide, (frame_serials_high_water_mark xsync_init 7).1 (by decide)⟩

/-- C8: the effective target rate of an exposure-triggered submission equals
min(configuredRate, 1e6/frameIntervalAverage) when the frame-interval
average is positive, and the configured rate unchanged otherwise; in
particular a 20000-microsecond measured average (50 fps) caps a configured
60 fps to 50 fps. -/
theorem cap_frame_rate_min_spec (frame_time_avg : Int) (frame_rate : ℚ) :
    (0 < frame_time_avg →
      cap_frame_rate frame_time_avg frame_rate =
        min frame_rate (1000000 / (frame_time_avg : ℚ))) ∧
    (frame_time_avg ≤ 0 →
      cap_frame_rate frame_time_avg frame_rate = frame_rate) ∧
    cap_frame_rate 20000 60 = 50 := by
  refine ⟨fun h => ?_, fun h => ?_, by norm_num [cap_frame_rate]⟩
  · unfold cap_frame_rate
    rcases lt_or_le (1000000 / (frame_time_avg : ℚ)) frame_rate with hlt | hle
    · rw [if_pos ⟨h, hlt⟩, min_eq_right hlt.le]
    · rw [if_neg (by simp [h, not_lt.mpr hle]), min_eq_left hle]
  · unfold cap_frame_rate
    rw [if_neg (by simp [not_lt.mpr h])]

/-- Witness for C8 at the 50-fps-measured, 60-fps-configured instance. -/
theorem cap_frame_rate_min_spec_witness :
    (0 : Int) < 20000 ∧
    cap_frame_rate 20000 60 = min 60 (1000000 / ((20000 : Int) : ℚ)) :=
  ⟨by decide, (cap_frame_rate_min_spec 20000 60).1 (by decide)⟩

/-- C10 counterexample: a geometry change in a state where the requested
serial is 0 but the requested extended flag is set (reachable from a sync
request carrying serial 0 with the extended flag) leaves the
extended-configured flag set rather than resetting it to 0, so the claim as
stated fails at this input. -/
theorem configure_notify_flag_cex :
    (on_configure { xsync_init with
        request_extended_sync := true
        configure_sync_serial := 7
        configure_extended_sync := true }).configure_extended_sync = true ∧
    ({ xsync_init with
        request_extended_sync := true
        configure_sync_serial := 7
        configure_extended_sync := true } :
      xsync_state).request_sync_serial = 0 := by decide

/-- C10 amended: every geometry-change notification unconditionally
overwrites the configured slot and extended-configured flag with the current
requested values and then zeroes the requested slot; consequently a geometry
change arriving when no sync request is pending (requested serial 0 and
requested extended flag clear) resets any previously promoted but
not-yet-consumed configured value and its extended flag to 0. -/
theorem configure_notify_overwrites (s : xsync_state) :
    (on_configure s).configure_sync_serial = s.request_sync_serial ∧
    (on_configure s).configure_extended_sync = s.request_extended_sync ∧
    (on_configure s).request_sync_serial = 0 ∧
    (on_configure s).request_extended_sync = false ∧
    (s.request_sync_serial = 0 → s.request_extended_sync = false →
      (on_configure s).configure_sync_serial = 0 ∧
      (on_configure s).configure_extended_sync = false) := by
  refine ⟨rfl, rfl, rfl, rfl, fun h1 h2 => ⟨?_, ?_⟩⟩ <;>
    simp [on_configure, sync_counter_ext, h1, h2]

/-- Witness for C10 at a concrete state with a promoted configured value. -/
theorem configure_notify_overwrites_witness :
    ({ xsync_init with configure_sync_serial := 9 } :
      xsync_state).request_sync_serial = 0 ∧
    (on_configure { xsync_init with
        configure_sync_serial := 9 }).configure_sync_serial = 0 ∧
    (on_configure { xsync_init with
        configure_sync_serial := 9 }).configure_extended_sync = false :=
  ⟨rfl, (configure_notify_overwrites
    { xsync_init with configure_sync_serial := 9 }).2.2.2.2 rfl rfl⟩

/-- C4 counterexample: end_frame in a state with a pending configured value
(configured = 5, nonzero) whose extended-configured flag is clear publishes
nothing to the basic update counter and does not clear the pending value, so
the claim as stated (conditioned on configured != 0 alone) fails here. -/
theorem end_frame_basic_pending_cex :
    (end_frame { xsync_init with
        configure_sync_serial := 5 }).update_writes = [] ∧
    (end_frame { xsync_init with
        configure_sync_serial := 5 }).configure_sync_serial = 5 := by decide

/-- C4 amended: for every call to end_frame in a state where a configured
value is pending (configured != 0) and the extended-configured flag is set,
the configured value is published to the basic counter exactly once, and
both the configured value and the extended flag are cleared to 0. -/
theorem end_frame_publishes_configured (s : xsync_state)
    (hc : s.configure_sync_serial ≠ 0)
    (he : s.configure_extended_sync = true) :
    (end_frame s).update_writes =
      s.update_writes ++ [s.configure_sync_serial] ∧
    (end_frame s).configure_sync_serial = 0 ∧
    (end_frame s).configure_extended_sync = false := by
  unfold end_frame sync_counter_ext sync_counter_upd
  by_cases h1 : s.current_sync_serial % 4 = 1
  · simp [h1, hc, he]
  · by_cases h3 : s.current_sync_serial % 4 = 3
    · simp [h1, h3, hc, he]
    · simp [h1, h3, hc, he]

/-- Helper: appending one sample updates exactly the slot at the current
cursor position (the length of the previous history mod the capacity). -/
lemma cb_slot_spec_append (xs : List Int) (x : Int) (j : Nat) :
    cb_slot_spec (xs ++ [x]) j =
      if j = xs.length % cb_capacity then x else cb_slot_spec xs j := by
  unfold cb_slot_spec cb_capacity
  simp only [List.length_append, List.length_singleton]
  by_cases hj : j = xs.length % 31
  · rw [if_pos hj]
    rw [if_pos (by omega : j < xs.length + 1 ∧ j < 31)]
    have hidx : j + 31 * ((xs.length + 1 - 1 - j) / 31) = xs.length := by
      omega
    rw [hidx, List.getD_append_right xs [x] 0 xs.length (le_refl _)]
    simp
  · rw [if_neg hj]
    by_cases h2 : j < xs.length + 1 ∧ j < 31
    · have hjlt : j < xs.length := by omega
      rw [if_pos h2, if_pos ⟨hjlt, h2.2⟩]
      have hidx : j + 31 * ((xs.length + 1 - 1 - j) / 31) =
          j + 31 * ((xs.length - 1 - j) / 31) := by omega
      rw [hidx]
      exact List.getD_append xs [x] 0 _ (by omega)
    · rw [if_neg h2, if_neg (by omega : ¬(j < xs.length ∧ j < 31))]

/-- Helper: the slot about to be overwritten by the next insertion holds the
sample inserted capacity steps ago, or 0 while the buffer is still
filling. -/
lemma cb_slot_spec_cursor (xs : List Int) :
    cb_slot_spec xs (xs.length % cb_capacity) =
      if xs.length < cb_capacity then 0
      else xs.getD (xs.length - cb_capacity) 0 := by
  unfold cb_slot_spec cb_capacity
  by_cases h : xs.length < 31
  · rw [if_pos h,
      if_neg (by omega : ¬(xs.length % 31 < xs.length ∧ xs.length % 31 < 31))]
  · rw [if_neg h,
      if_pos (by omega : xs.length % 31 < xs.length ∧ xs.length % 31 < 31)]
    have hidx : xs.length % 31 +
        31 * ((xs.length - 1 - xs.length % 31) / 31) = xs.length - 31 := by
      omega
    rw [hidx]

/-- Helper: full characterization of the buffer after inserting a list into
a fresh buffer: the count is the number of insertions, the cursor is that
count mod the capacity, each slot holds its most recent write, and the sum
equals the sum of the most recent min(count, capacity) samples (the drop
below is exactly that suffix, by Nat truncated subtraction). -/
lemma cb_insert_list_state (xs : List Int) :
    (cb_insert_list cb_init xs).count = xs.length ∧
    (cb_insert_list cb_init xs).offset = xs.length % cb_capacity ∧
    (∀ j, (cb_insert_list cb_init xs).samples j = cb_slot_spec xs j) ∧
    (cb_insert_list cb_init xs).sum =
      (xs.drop (xs.length - cb_capacity)).sum := by
  induction xs using List.reverseRecOn with
  | nil =>
      refine ⟨rfl, rfl, fun j => ?_, rfl⟩
      simp [cb_insert_list, cb_init, cb_slot_spec]
  | append_singleton xs x ih =>
      obtain ⟨ihc, iho, ihs, ihsum⟩ := ih
      have hstep : cb_insert_list cb_init (xs ++ [x]) =
          circular_buffer_add (cb_insert_list cb_init xs) x := by
        simp [cb_insert_list, List.foldl_append]
      rw [hstep]
      refine ⟨?_, ?_, fun j => ?_, ?_⟩
      · show (cb_insert_list cb_init xs).count + 1 = (xs ++ [x]).length
        rw [ihc]
        simp
      · show (if cb_capacity ≤ (cb_insert_list cb_init xs).offset + 1 then 0
            else (cb_insert_list cb_init xs).offset + 1) =
          (xs ++ [x]).length % cb_capacity
        rw [iho]
        simp only [List.length_append, List.length_singleton]
        unfold cb_capacity
        split <;> omega
      · show Function.update (cb_insert_list cb_init xs).samples
            (cb_insert_list cb_init xs).offset x j =
          cb_slot_spec (xs ++ [x]) j
        rw [iho, cb_slot_spec_append]
        by_cases hj : j = xs.length % cb_capacity
        · rw [if_pos hj, hj, Function.update_same]
        · rw [if_neg hj, Function.update_noteq hj, ihs j]
      · show (cb_insert_list cb_init xs).sum +
            (x - (cb_insert_list cb_init xs).samples
              (cb_insert_list cb_init xs).offset) =
          ((xs ++ [x]).drop ((xs ++ [x]).length - cb_capacity)).sum
        rw [iho, ihs, cb_slot_spec_cursor, ihsum]
        simp only [List.length_append, List.length_singleton]
        by_cases h : xs.length < cb_capacity
        · rw [if_pos h]
          have h0 : xs.length - cb_capacity = 0 := by
            unfold cb_capacity at *; omega
          have h1 : xs.length + 1 - cb_capacity = 0 := by
            unfold cb_capacity at *; omega
          rw [h0, h1, List.drop_zero, List.drop_zero, List.sum_append]
          simp
        · rw [if_neg h]
          have h1 : xs.length + 1 - cb_capacity = xs.length - 30 := by
            unfold cb_capacity at *; omega
          have h2 : xs.length - 30 ≤ xs.length := by omega
          rw [h1, List.drop_append_of_le_length h2, List.sum_append]
          have h3 : xs.length - cb_capacity < xs.length := by
            unfold cb_capacity at *; omega
          rw [List.drop_eq_getElem_cons h3, List.sum_cons,
            List.getD_eq_getElem xs 0 h3]
          have h4 : xs.length - cb_capacity + 1 = xs.length - 30 := by
            unfold cb_capacity at *; omega
          rw [h4]
          simp
          ring

/-- C7: for a fresh capacity-31 buffer, after any sequence of insertions the
sum equals the arithmetic sum of the most recent min(n, 31) samples (the
Nat-truncated drop keeps exactly that suffix); in particular after 32
insertions the first sample no longer contributes, and after exactly 31
insertions the average is the (toward-zero truncated) arithmetic mean. -/
theorem circular_buffer_sum_last_min (xs : List Int) :
    (cb_insert_list cb_init xs).sum =
      (xs.drop (xs.length - cb_capacity)).sum ∧
    (xs.length = 32 →
      (cb_insert_list cb_init xs).sum = (xs.drop 1).sum) ∧
    (xs.length = cb_capacity →
      circular_buffer_average (cb_insert_list cb_init xs) =
        Int.tdiv xs.sum 31) := by
  obtain ⟨hc, -, -, hsum⟩ := cb_insert_list_state xs
  refine ⟨hsum, fun h32 => ?_, fun h31 => ?_⟩
  · rw [hsum, h32]
    norm_num [cb_capacity]
  · have hdrop : xs.length - cb_capacity = 0 := by
      rw [h31, Nat.sub_self]
    unfold circular_buffer_average
    rw [hc, h31]
    rw [if_neg (by norm_num [cb_capacity]),
      if_neg (by norm_num [cb_capacity]), hsum, hdrop, List.drop_zero]
    norm_num [cb_capacity]

/-- Witness for C7 at the 32-element list 0..31. -/
theorem circular_buffer_sum_last_min_witness :
    ((List.range 32).map Int.ofNat).length = 32 ∧
    (cb_insert_list cb_init ((List.range 32).map Int.ofNat)).sum =
      (((List.range 32).map Int.ofNat).drop 1).sum :=
  ⟨by decide,
    (circular_buffer_sum_last_min
      ((List.range 32).map Int.ofNat)).2.1 (by decide)⟩

/-- Helper: from any state whose serial slots are 64-bit values, begin_frame
with frame_normal leaves current odd with low bits 01 and in 64-bit range,
leaves the requested slot alone, and leaves the configured slot a 64-bit
value. -/
lemma begin_frame_normal_inv (s : xsync_state)
    (hcur : s.current_sync_serial < u64_mod)
    (hcfg : s.configure_sync_serial < u64_mod) :
    (begin_frame s frame_disposition.frame_normal).current_sync_serial % 4 =
      1 ∧
    (begin_frame s frame_disposition.frame_normal).current_sync_serial <
      u64_mod ∧
    (begin_frame s frame_disposition.frame_normal).request_sync_serial =
      s.request_sync_serial ∧
    (begin_frame s frame_disposition.frame_normal).configure_sync_serial <
      u64_mod := by
  unfold begin_frame sync_counter_ext
  by_cases hc : s.configure_sync_serial ≠ 0 ∧ s.configure_extended_sync
  · rw [if_pos hc]
    by_cases ha : s.configure_sync_serial % 4 ≠ 0 <;>
      simp [ha] <;> unfold u64_mod at * <;> omega
  · rw [if_neg hc]
    by_cases ha : s.current_sync_serial % 4 ≠ 0 <;>
      simp [ha, hcfg] <;> unfold u64_mod at * <;> omega

/-- Helper: end_frame after a normal begin restores current to a multiple
of 4 in 64-bit range, and keeps the other slots 64-bit. -/
lemma end_frame_inv (s : xsync_state)
    (h1 : s.current_sync_serial % 4 = 1)
    (hcur : s.current_sync_serial < u64_mod)
    (hreq : s.request_sync_serial < u64_mod)
    (hcfg : s.configure_sync_serial < u64_mod) :
    xsync_inv (end_frame s) := by
  unfold end_frame sync_counter_ext sync_counter_upd xsync_inv
  by_cases hc : s.configure_sync_serial ≠ 0 ∧ s.configure_extended_sync <;>
    simp [h1, hc] <;> unfold u64_mod at * <;> omega

/-- Helper: every protocol operation preserves the idle invariant. -/
lemma apply_sync_op_inv (s : xsync_state) (op : sync_op)
    (h : xsync_inv s) : xsync_inv (apply_sync_op s op) := by
  obtain ⟨h4, hcur, hreq, hcfg⟩ := h
  cases op with
  | op_cycle =>
      obtain ⟨b1, b2, b3, b4⟩ := begin_frame_normal_inv s hcur hcfg
      exact end_frame_inv _ b1 b2 (b3 ▸ hreq) b4
  | op_sync_request serial extended =>
      refine ⟨h4, hcur, ?_, hcfg⟩
      exact Nat.mod_lt _ (by unfold u64_mod; positivity)
  | op_configure =>
      exact ⟨h4, hcur, by unfold u64_mod; positivity, hreq⟩
  | op_frame_drawn serial =>
      show xsync_inv (on_frame_drawn s serial)
      unfold on_frame_drawn
      split <;> exact ⟨h4, hcur, hreq, hcfg⟩
  | op_frame_timings serial =>
      show xsync_inv (on_frame_timings s serial)
      unfold on_frame_timings
      split <;> exact ⟨h4, hcur, hreq, hcfg⟩

/-- Helper: running any operation sequence preserves the idle invariant. -/
lemma run_sync_ops_inv (ops : List sync_op) (s : xsync_state)
    (h : xsync_inv s) : xsync_inv (run_sync_ops s ops) := by
  induction ops generalizing s with
  | nil => exact h
  | cons op rest ih => exact ih _ (apply_sync_op_inv s op h)

/-- C2: for every sequence of normal begin_frame/end_frame cycle pairs
interleaved with dispatcher updates to the requested and configured slots
(and the high-water marks), starting from the initial state, current is a
multiple of 4 at every point strictly between cycles. -/
theorem current_idle_multiple_of_four (ops : List sync_op) :
    (run_sync_ops xsync_init ops).current_sync_serial % 4 = 0 :=
  (run_sync_ops_inv ops xsync_init
    ⟨rfl, by decide, by decide, by decide⟩).1

/-- Helper: in a state with current aligned to 4, in 64-bit range, and no
pending extended-configured serial, begin_frame with frame_normal reduces to
the explicit record advancing current by 1. -/
lemma begin_frame_normal_idle (s : xsync_state)
    (h4 : s.current_sync_serial % 4 = 0)
    (hlt : s.current_sync_serial < u64_mod)
    (hp : s.configure_sync_serial = 0 ∨ s.configure_extended_sync = false) :
    begin_frame s frame_disposition.frame_normal =
      { s with
        inflight_sync_serial := (s.current_sync_serial + 4) % u64_mod
        current_sync_serial := s.current_sync_serial + 1
        extended_writes :=
          s.extended_writes ++ [s.current_sync_serial + 1] } := by
  have hc1 : ¬(s.configure_sync_serial ≠ 0 ∧ s.configure_extended_sync) := by
    rcases hp with h | h <;> simp [h]
  have hlt1 : s.current_sync_serial + 1 < u64_mod := by
    unfold u64_mod at *; omega
  simp [begin_frame, sync_counter_ext, hc1, h4, Nat.mod_eq_of_lt hlt1]

/-- C1: from an idle state (current a multiple of 4, no pending
extended-configured serial), begin_frame with frame_normal publishes the old
idle current plus 1 to the extended counter and sets inflight to the old
idle current plus 4, and the subsequent end_frame publishes the old idle
current plus 4 (taken in 64-bit ulong arithmetic), returning current to an
idle multiple of 4. -/
theorem begin_end_normal_cycle (s : xsync_state)
    (h4 : s.current_sync_serial % 4 = 0)
    (hlt : s.current_sync_serial < u64_mod)
    (hp : s.configure_sync_serial = 0 ∨ s.configure_extended_sync = false) :
    (begin_frame s frame_disposition.frame_normal).extended_writes =
      s.extended_writes ++ [s.current_sync_serial + 1] ∧
    (begin_frame s frame_disposition.frame_normal).inflight_sync_serial =
      (s.current_sync_serial + 4) % u64_mod ∧
    (end_frame (begin_frame s
        frame_disposition.frame_normal)).extended_writes =
      s.extended_writes ++ [s.current_sync_serial + 1,
        (s.current_sync_serial + 4) % u64_mod] ∧
    (end_frame (begin_frame s
        frame_disposition.frame_normal)).current_sync_serial =
      (s.current_sync_serial + 4) % u64_mod ∧
    (end_frame (begin_frame s
        frame_disposition.frame_normal)).current_sync_serial % 4 = 0 := by
  have hc1 : ¬(s.configure_sync_serial ≠ 0 ∧ s.configure_extended_sync) := by
    rcases hp with h | h <;> simp [h]
  rw [begin_frame_normal_idle s h4 hlt hp]
  have hm1 : (s.current_sync_serial + 1) % 4 = 1 := by omega
  have hm4 : s.current_sync_serial + 1 + 3 = s.current_sync_serial + 4 := by
    omega
  refine ⟨rfl, rfl, ?_, ?_, ?_⟩ <;>
    simp [end_frame, sync_counter_ext, sync_counter_upd, hm1, hm4, hc1] <;>
    unfold u64_mod <;> omega

/-- Witness for C1 at the initial idle state. -/
theorem begin_end_normal_cycle_witness :
    xsync_init.current_sync_serial % 4 = 0 ∧
    (end_frame (begin_frame xsync_init
        frame_disposition.frame_normal)).current_sync_serial =
      (xsync_init.current_sync_serial + 4) % u64_mod :=
  ⟨rfl, (begin_end_normal_cycle xsync_init rfl (by decide)
    (Or.inl rfl)).2.2.2.1⟩

/-- C3: when the timing high-water serial is positive and strictly behind
the in-flight serial, submit_frame does not invoke the Renderer, leaves the
frame counter, last draw time, averaging buffers and sync state unchanged,
flushes the connection once, and reschedules next_draw_time to exactly
now + 2000 microseconds. -/
theorem submit_frame_backpressure (st : frame_sched_state)
    (disposition : frame_disposition) (target_frame_rate : ℚ)
    (now now2 : Int)
    (h1 : 0 < st.sync.timing_sync_serial)
    (h2 : st.sync.timing_sync_serial < st.sync.inflight_sync_serial) :
    (submit_frame st disposition target_frame_rate now
        now2).renderer_invocations = st.renderer_invocations ∧
    (submit_frame st disposition target_frame_rate now now2).frame_number =
      st.frame_number ∧
    (submit_frame st disposition target_frame_rate now now2).last_draw_time =
      st.last_draw_time ∧
    (submit_frame st disposition target_frame_rate now
        now2).frame_time_buffer = st.frame_time_buffer ∧
    (submit_frame st disposition target_frame_rate now
        now2).render_time_buffer = st.render_time_buffer ∧
    (submit_frame st disposition target_frame_rate now now2).flush_count =
      st.flush_count + 1 ∧
    (submit_frame st disposition target_frame_rate now now2).next_draw_time =
      now + 2000 ∧
    (submit_frame st disposition target_frame_rate now now2).sync =
      st.sync := by
  refine ⟨?_, ?_, ?_, ?_, ?_, ?_, ?_, ?_⟩ <;>
    simp [submit_frame, h1, h2]

/-- Witness for C3 at a concrete backpressured state. -/
theorem submit_frame_backpressure_witness :
    (0 : Nat) <
      ({ sched_init with sync := { xsync_init with
          timing_sync_serial := 1
          inflight_sync_serial := 4 } } :
        frame_sched_state).sync.timing_sync_serial ∧
    (submit_frame { sched_init with sync := { xsync_init with
        timing_sync_serial := 1
        inflight_sync_serial := 4 } }
      frame_disposition.frame_normal 60 100 200).next_draw_time = 100 + 2000 :=
  ⟨by decide, (submit_frame_backpressure
    { sched_init with sync := { xsync_init with
        timing_sync_serial := 1
        inflight_sync_serial := 4 } }
    frame_disposition.frame_normal 60 100 200
    (by decide) (by decide)).2.2.2.2.2.2.1⟩

/-- C5: an exposure-triggered submission that passes the backpressure guard
publishes values with low bits 01 (advance by 1, the normal phase) to the
extended counter, because submit_frame passes frame_normal to begin_frame
regardless of its urgent disposition argument: from the initial state the
extended-counter trace is [1, 4], not the [3, 4] an urgent advance by 3
would produce. -/
theorem expose_submit_publishes_normal_phase :
    (on_expose sched_init 60 0 5).sync.extended_writes = [1, 4] := by decide

/-- Witness for C4 at a concrete pending extended-configured state. -/
theorem end_frame_publishes_configured_witness :
    ({ xsync_init with configure_sync_serial := 5
                       configure_extended_sync := true } :
      xsync_state).configure_sync_serial ≠ 0 ∧
    (end_frame { xsync_init with
        configure_sync_serial := 5
        configure_extended_sync := true }).update_writes = [] ++ [5] :=
  ⟨by decide, (end_frame_publishes_configured
    { xsync_init with configure_sync_serial := 5
                      configure_extended_sync := true }
    (by decide) rfl).1⟩
